import Mathlib

/-!
Verification of the HealthOS backend ingestion core
(`src/backend/src/healthos_backend/app.py`).

The development shallowly embeds:
* the JSON value space (Python `json` module values; floats are modelled as
  rationals, since the program never computes with them, it only validates
  and serializes them verbatim);
* the pydantic models `WorkoutDTO`, `DailyMetricDTO`, `IngestPayload`
  (all declared with `model_config = ConfigDict(extra="forbid")`), together
  with the validation FastAPI performs on a request body against
  `IngestPayload`;
* the SQLAlchemy table `IngestEvent` and the function `_insert_event`;
* the route handler `ingest_healthkit`, including FastAPI's documented
  default handling of a request-body validation failure (an HTTP 422
  response whose body is a `detail` list produced by the framework's
  `RequestValidationError` handler);
* an interleaved execution of two concurrent `_insert_event` calls against
  a store that enforces the primary-key uniqueness constraint of the
  `ingest_events` table.
-/

namespace HealthOS

/-- JSON values as produced by `json.loads` / consumed by `json.dumps`.
Numbers are rationals: the program performs no arithmetic on them. Objects
are ordered key/value lists (Python dicts preserve insertion order). -/
inductive Json : Type where
  | null : Json
  | bool : Bool → Json
  | str : String → Json
  | num : Rat → Json
  | arr : List Json → Json
  | obj : List (String × Json) → Json

/-- The `Source` enum of `app.py`: `healthkit = "healthkit"`, `manual = "manual"`. -/
inductive Source : Type where
  | healthkit : Source
  | manual : Source
deriving DecidableEq, Repr

/-- The string value of a `Source` member (Python `Source.x.value`). -/
def Source.value : Source → String
  | .healthkit => "healthkit"
  | .manual => "manual"

/-- The `DailyMetricType` enum of `app.py`. -/
inductive DailyMetricType : Type where
  | steps : DailyMetricType
  | active_energy_kcal : DailyMetricType
  | sleep_hours : DailyMetricType
  | body_weight_lbs : DailyMetricType
deriving DecidableEq, Repr

/-- The string value of a `DailyMetricType` member. -/
def DailyMetricType.value : DailyMetricType → String
  | .steps => "steps"
  | .active_energy_kcal => "active_energy_kcal"
  | .sleep_hours => "sleep_hours"
  | .body_weight_lbs => "body_weight_lbs"

/-- `WorkoutDTO` of `app.py`: three required string fields, one optional
string field, three optional float fields. -/
structure WorkoutDTO : Type where
  source_workout_id : String
  activity_type : String
  started_at : String
  ended_at : Option String
  duration_sec : Option Rat
  active_energy_kcal : Option Rat
  distance_m : Option Rat
deriving DecidableEq, Repr

/-- `DailyMetricDTO` of `app.py`. -/
structure DailyMetricDTO : Type where
  date : String
  metric_type : DailyMetricType
  value : Rat
  unit : String
deriving DecidableEq, Repr

/-- `IngestPayload` of `app.py`: `schema_version`, `user_id`, `source`,
`workouts` and `daily_metrics` have defaults; `event_id`, `sent_at` and
`device_id` are required. -/
structure IngestPayload : Type where
  schema_version : Int
  event_id : String
  user_id : String
  source : Source
  sent_at : String
  device_id : String
  workouts : List WorkoutDTO
  daily_metrics : List DailyMetricDTO
deriving DecidableEq, Repr

/-! ### Validation (pydantic models with `extra="forbid"`) -/

/-- Key lookup in a JSON object, last occurrence wins (as with `json.loads`
into a Python dict). -/
def lookupKey (kvs : List (String × Json)) (k : String) : Option Json :=
  kvs.foldl (fun acc kv => if kv.1 == k then some kv.2 else acc) none

/-- The declared field names of `WorkoutDTO`. -/
def workoutKeys : List String :=
  ["source_workout_id", "activity_type", "started_at", "ended_at",
   "duration_sec", "active_energy_kcal", "distance_m"]

/-- The declared field names of `DailyMetricDTO`. -/
def dailyMetricKeys : List String :=
  ["date", "metric_type", "value", "unit"]

/-- The declared field names of `IngestPayload`. -/
def payloadKeys : List String :=
  ["schema_version", "event_id", "user_id", "source", "sent_at",
   "device_id", "workouts", "daily_metrics"]

/-- `extra="forbid"`: every key of the object must be a declared field. -/
def hasOnlyKeys (kvs : List (String × Json)) (allowed : List String) : Bool :=
  kvs.all (fun kv => allowed.contains kv.1)

/-- A required `str` field accepts exactly a JSON string. -/
def parseStr : Json → Option String
  | .str s => some s
  | _ => none

/-- A required `float` field accepts a JSON number. -/
def parseNum : Json → Option Rat
  | .num q => some q
  | _ => none

/-- A required `int` field accepts an integral JSON number. -/
def parseInt : Json → Option Int
  | .num q => if q.den = 1 then some q.num else none
  | _ => none

/-- An `Optional[str] = None` field: absent or `null` gives `None`. -/
def parseOptStr : Option Json → Option (Option String)
  | none => some none
  | some .null => some none
  | some (.str s) => some (some s)
  | some _ => none

/-- An `Optional[float] = None` field: absent or `null` gives `None`. -/
def parseOptNum : Option Json → Option (Option Rat)
  | none => some none
  | some .null => some none
  | some (.num q) => some (some q)
  | some _ => none

/-- A `Source` enum field accepts exactly the two member values. -/
def parseSource : Json → Option Source
  | .str s =>
      if s = "healthkit" then some Source.healthkit
      else if s = "manual" then some Source.manual
      else none
  | _ => none

/-- A `DailyMetricType` enum field accepts exactly the four member values. -/
def parseMetricType : Json → Option DailyMetricType
  | .str s =>
      if s = "steps" then some DailyMetricType.steps
      else if s = "active_energy_kcal" then some DailyMetricType.active_energy_kcal
      else if s = "sleep_hours" then some DailyMetricType.sleep_hours
      else if s = "body_weight_lbs" then some DailyMetricType.body_weight_lbs
      else none
  | _ => none

/-- A required field of the object, parsed with `f`. -/
def reqField (f : Json → Option α) (kvs : List (String × Json)) (k : String) : Option α :=
  (lookupKey kvs k).bind f

/-- A defaulted field: absent gives the default, present must parse. -/
def defField (f : Json → Option α) (d : α) (kvs : List (String × Json)) (k : String) :
    Option α :=
  match lookupKey kvs k with
  | none => some d
  | some j => f j

/-- Validate every element of a JSON list. -/
def parseListWith (f : Json → Option α) : List Json → Option (List α)
  | [] => some []
  | x :: xs => (f x).bind fun a => (parseListWith f xs).bind fun as_ => some (a :: as_)

/-- A `List[...] = []` field: absent gives `[]`, present must be an array of
valid elements. -/
def listField (f : Json → Option α) (kvs : List (String × Json)) (k : String) :
    Option (List α) :=
  match lookupKey kvs k with
  | none => some []
  | some (.arr xs) => parseListWith f xs
  | some _ => none

/-- Validation of a JSON value against `WorkoutDTO`. -/
def validateWorkout (j : Json) : Option WorkoutDTO :=
  match j with
  | .obj kvs =>
      if hasOnlyKeys kvs workoutKeys then
        (reqField parseStr kvs "source_workout_id").bind fun swid =>
        (reqField parseStr kvs "activity_type").bind fun act =>
        (reqField parseStr kvs "started_at").bind fun st =>
        (parseOptStr (lookupKey kvs "ended_at")).bind fun ea =>
        (parseOptNum (lookupKey kvs "duration_sec")).bind fun ds =>
        (parseOptNum (lookupKey kvs "active_energy_kcal")).bind fun ae =>
        (parseOptNum (lookupKey kvs "distance_m")).bind fun dm =>
        some ⟨swid, act, st, ea, ds, ae, dm⟩
      else none
  | _ => none

/-- Validation of a JSON value against `DailyMetricDTO`. -/
def validateDailyMetric (j : Json) : Option DailyMetricDTO :=
  match j with
  | .obj kvs =>
      if hasOnlyKeys kvs dailyMetricKeys then
        (reqField parseStr kvs "date").bind fun d =>
        (reqField parseMetricType kvs "metric_type").bind fun mt =>
        (reqField parseNum kvs "value").bind fun v =>
        (reqField parseStr kvs "unit").bind fun u =>
        some ⟨d, mt, v, u⟩
      else none
  | _ => none

/-- Validation of a request body against `IngestPayload`: strict shape
(`extra="forbid"`), defaults `schema_version = 1`, `user_id = "matt"`,
`source = Source.healthkit`, `workouts = []`, `daily_metrics = []`. -/
def validateIngestPayload (j : Json) : Option IngestPayload :=
  match j with
  | .obj kvs =>
      if hasOnlyKeys kvs payloadKeys then
        (defField parseInt 1 kvs "schema_version").bind fun sv =>
        (reqField parseStr kvs "event_id").bind fun eid =>
        (defField parseStr "matt" kvs "user_id").bind fun uid =>
        (defField parseSource Source.healthkit kvs "source").bind fun src =>
        (reqField parseStr kvs "sent_at").bind fun sa =>
        (reqField parseStr kvs "device_id").bind fun did =>
        (listField validateWorkout kvs "workouts").bind fun ws =>
        (listField validateDailyMetric kvs "daily_metrics").bind fun dms =>
        some ⟨sv, eid, uid, src, sa, did, ws, dms⟩
      else none
  | _ => none

/-! ### Serialization (`payload.model_dump()` followed by `json.dumps`) -/

/-- Dump of an `Optional[str]` field: `None` serializes to `null`. -/
def dumpOptStr : Option String → Json
  | none => .null
  | some s => .str s

/-- Dump of an `Optional[float]` field: `None` serializes to `null`. -/
def dumpOptNum : Option Rat → Json
  | none => .null
  | some q => .num q

/-- `model_dump` of a `WorkoutDTO`, fields in declaration order. -/
def dumpWorkout (w : WorkoutDTO) : Json :=
  .obj [("source_workout_id", .str w.source_workout_id),
        ("activity_type", .str w.activity_type),
        ("started_at", .str w.started_at),
        ("ended_at", dumpOptStr w.ended_at),
        ("duration_sec", dumpOptNum w.duration_sec),
        ("active_energy_kcal", dumpOptNum w.active_energy_kcal),
        ("distance_m", dumpOptNum w.distance_m)]

/-- `model_dump` of a `DailyMetricDTO`; the str-enum serializes as its
string value. -/
def dumpDailyMetric (m : DailyMetricDTO) : Json :=
  .obj [("date", .str m.date),
        ("metric_type", .str m.metric_type.value),
        ("value", .num m.value),
        ("unit", .str m.unit)]

/-- `payload.model_dump()` of an `IngestPayload`, as serialized by
`json.dumps`: `schema_version` stays an integer JSON number, the str-enum
`source` serializes as its string value, lists element-wise. -/
def dumpPayload (p : IngestPayload) : Json :=
  .obj [("schema_version", .num (p.schema_version : Rat)),
        ("event_id", .str p.event_id),
        ("user_id", .str p.user_id),
        ("source", .str p.source.value),
        ("sent_at", .str p.sent_at),
        ("device_id", .str p.device_id),
        ("workouts", .arr (p.workouts.map dumpWorkout)),
        ("daily_metrics", .arr (p.daily_metrics.map dumpDailyMetric))]

/-! ### The store (`IngestEvent` table and `_insert_event`) -/

/-- A row of the `ingest_events` table. `schema_version` is a `String`
column (the code stores `str(payload.schema_version)`); `received_at` is a
server-assigned timestamp, modelled as a `Nat` tick; `payload_json` is the
`Text` column holding `json.dumps(payload.model_dump())`, modelled at the
JSON-value level. -/
structure IngestEvent : Type where
  id : String
  user_id : String
  source : String
  schema_version : String
  event_type : String
  received_at : Nat
  payload_json : Json

/-- The database: the rows of the `ingest_events` table, in insertion
order. -/
structure DB : Type where
  rows : List IngestEvent

/-- The empty table. -/
def emptyDB : DB := ⟨[]⟩

/-- `db.get(IngestEvent, k)`: primary-key lookup. -/
def dbGet (db : DB) (k : String) : Option IngestEvent :=
  db.rows.find? (fun e => e.id == k)

/-- Number of rows whose primary key is `k`. -/
def rowCount (db : DB) (k : String) : Nat :=
  (db.rows.filter (fun e => e.id == k)).length

/-- The row `_insert_event` constructs for a payload: `id` is the client
`event_id`, `source` and `schema_version` are stringified, `received_at`
is the current server time, `payload_json` the serialized submission. -/
def mkEvent (now : Nat) (p : IngestPayload) (event_type : String) : IngestEvent :=
  ⟨p.event_id, p.user_id, p.source.value, toString p.schema_version,
   event_type, now, dumpPayload p⟩

/-- `_insert_event` of `app.py` (sequential execution): look up the row by
primary key; if present, return with no write (idempotent retry); if
absent, add the new row and commit. -/
def insertEvent (db : DB) (now : Nat) (p : IngestPayload) (event_type : String) : DB :=
  match dbGet db p.event_id with
  | some _ => db
  | none => ⟨db.rows ++ [mkEvent now p event_type]⟩

/-! ### The route handler and the HTTP layer -/

/-- The JSON bodies the `/ingest/healthkit` route can produce. `okBody` is
`{"status": "ok", "stored_event_id": ..., "workouts": ..., "metrics": ...}`;
`errBody` is `{"status": "error", "message": ...}`; `validationDetail` is
the `{"detail": [...]}` body FastAPI's default `RequestValidationError`
handler produces when the request body fails validation. -/
inductive RespBody : Type where
  | okBody : String → Nat → Nat → RespBody
  | errBody : String → RespBody
  | validationDetail : RespBody
deriving DecidableEq, Repr

/-- An HTTP response: status code and body. -/
structure HttpResponse : Type where
  status : Nat
  body : RespBody
deriving DecidableEq, Repr

/-- `ingest_healthkit` of `app.py`, after FastAPI has validated the body
into an `IngestPayload`: reject a non-healthkit source before touching the
store, otherwise insert and report the counts. -/
def ingest_healthkit (db : DB) (now : Nat) (p : IngestPayload) : DB × RespBody :=
  if p.source ≠ Source.healthkit then
    (db, .errBody "source must be healthkit")
  else
    (insertEvent db now p "healthkit_bundle",
     .okBody p.event_id p.workouts.length p.daily_metrics.length)

/-- A request to `POST /ingest/healthkit` end to end: FastAPI validates the
raw body against `IngestPayload`; on failure it returns HTTP 422 with a
`detail` body (its documented default for `RequestValidationError`) and the
handler never runs; on success the handler's return value is sent with
HTTP 200. -/
def handleIngest (db : DB) (now : Nat) (body : Json) : DB × HttpResponse :=
  match validateIngestPayload body with
  | none => (db, ⟨422, .validationDetail⟩)
  | some p =>
      let r := ingest_healthkit db now p
      (r.1, ⟨200, r.2⟩)

/-! ### Two concurrent `_insert_event` calls -/

/-- Result of a `commit` of one new row against the table: the primary-key
uniqueness constant of `ingest_events` makes the commit fail with an
`IntegrityError` when a row with the same `id` is already present. -/
inductive CommitResult : Type where
  | committed : CommitResult
  | integrityError : CommitResult
deriving DecidableEq, Repr

/-- Commit of an insert against the table, enforcing the primary-key
constraint. -/
def commitInsert (db : DB) (e : IngestEvent) : DB × CommitResult :=
  if db.rows.any (fun r => r.id == e.id) then (db, .integrityError)
  else (⟨db.rows ++ [e]⟩, .committed)

/-- What the caller of `_insert_event` observes. `_insert_event` wraps the
session in `try/finally` with no `except` clause, so an `IntegrityError`
raised by `db.commit()` propagates to the caller as an exception. -/
inductive Outcome : Type where
  | success : Outcome
  | exceptionRaised : Outcome
deriving DecidableEq, Repr

/-- Outcome of `_insert_event` as a function of its commit's result: a
failing commit raises, because the code has no handler for it. -/
def outcomeOfCommit : CommitResult → Outcome
  | .committed => .success
  | .integrityError => .exceptionRaised

/-- Two concurrent executions A and B of `_insert_event` with the same
payload, under the racing interleaving in which both existence checks
(`db.get`) read the initial state before either commit runs; A's commit is
scheduled first. Each execution follows `_insert_event` exactly: a `get`
that finds a row returns success with no write; otherwise the execution
attempts to commit its insert. -/
def insertEventRace (db0 : DB) (nowA nowB : Nat) (p : IngestPayload)
    (event_type : String) : DB × Outcome × Outcome :=
  let rA := dbGet db0 p.event_id
  let rB := dbGet db0 p.event_id
  match rA with
  | some _ =>
      match rB with
      | some _ => (db0, .success, .success)
      | none =>
          let cB := commitInsert db0 (mkEvent nowB p event_type)
          (cB.1, .success, outcomeOfCommit cB.2)
  | none =>
      let cA := commitInsert db0 (mkEvent nowA p event_type)
      match rB with
      | some _ => (cA.1, outcomeOfCommit cA.2, .success)
      | none =>
          let cB := commitInsert cA.1 (mkEvent nowB p event_type)
          (cB.1, outcomeOfCommit cA.2, outcomeOfCommit cB.2)

/-! ### Sample submissions -/

/-- The example submission of the spec: one daily metric, no workouts. -/
def samplePayload : IngestPayload :=
  { schema_version := 1
    event_id := "e1"
    user_id := "matt"
    source := Source.healthkit
    sent_at := "2024-01-01T00:00:00Z"
    device_id := "d1"
    workouts := []
    daily_metrics := [⟨"2024-01-01", DailyMetricType.steps, 5000, "count"⟩] }

/-- A submission with 2 workouts and 3 daily metrics. -/
def sampleFullPayload : IngestPayload :=
  { schema_version := 2
    event_id := "e2"
    user_id := "matt"
    source := Source.healthkit
    sent_at := "2024-02-01T08:30:00Z"
    device_id := "d2"
    workouts :=
      [⟨"w1", "running", "2024-02-01T07:00:00Z", some "2024-02-01T07:45:00Z",
        some 2700, some 410, some 8000⟩,
       ⟨"w2", "walking", "2024-02-01T12:00:00Z", none, none, none, none⟩]
    daily_metrics :=
      [⟨"2024-02-01", DailyMetricType.steps, 9000, "count"⟩,
       ⟨"2024-02-01", DailyMetricType.sleep_hours, 7.5, "hr"⟩,
       ⟨"2024-02-01", DailyMetricType.body_weight_lbs, 180, "lb"⟩] }

/-- A submission whose declared source is `manual`. -/
def sampleManualPayload : IngestPayload :=
  { samplePayload with source := Source.manual, event_id := "e3" }

/-- A table already holding the row for `samplePayload`. -/
def sampleDB1 : DB := ⟨[mkEvent 1 samplePayload "healthkit_bundle"]⟩

/-- A raw body that is valid except for one undeclared top-level key. -/
def extraKeyBody : Json :=
  Json.obj [("event_id", Json.str "e9"), ("sent_at", Json.str "s"),
            ("device_id", Json.str "d"), ("flavor", Json.str "x")]

/-! ### Helper lemmas -/

/-- A bind is `none` when the continuation is constantly `none`. -/
theorem bind_eq_none_of (x : Option α) {f : α → Option β} (h : ∀ a, f a = none) :
    x.bind f = none := by
  cases x <;> simp [h]

/-- After inserting the row for a fresh `event_id`, the primary-key lookup
finds exactly that row. -/
theorem dbGet_append_self {db : DB} {p : IngestPayload} {now : Nat} {et : String}
    (h : dbGet db p.event_id = none) :
    dbGet ⟨db.rows ++ [mkEvent now p et]⟩ p.event_id = some (mkEvent now p et) := by
  unfold dbGet at h ⊢
  rw [List.find?_append, h]
  simp [mkEvent, List.find?]

/-- After inserting the row for a fresh `event_id`, exactly one row with
that key exists. -/
theorem rowCount_append_self {db : DB} {p : IngestPayload} {now : Nat} {et : String}
    (h : dbGet db p.event_id = none) :
    rowCount ⟨db.rows ++ [mkEvent now p et]⟩ p.event_id = 1 := by
  unfold rowCount
  rw [List.filter_append]
  have hnil : db.rows.filter (fun e => e.id == p.event_id) = [] := by
    refine List.filter_eq_nil_iff.mpr ?_
    intro a ha
    exact List.find?_eq_none.mp h a ha
  rw [hnil]
  simp [mkEvent, List.filter]

/-- Validating the dump of a workout recovers the workout. -/
theorem validateWorkout_dump (w : WorkoutDTO) :
    validateWorkout (dumpWorkout w) = some w := by
  obtain ⟨a, b, c, d, e, f, g⟩ := w
  cases d <;> cases e <;> cases f <;> cases g <;> rfl

/-- Validating the dump of a daily metric recovers the metric. -/
theorem validateDailyMetric_dump (m : DailyMetricDTO) :
    validateDailyMetric (dumpDailyMetric m) = some m := by
  obtain ⟨d, t, v, u⟩ := m
  cases t <;> rfl

/-- Element-wise validation inverts an element-wise dump. -/
theorem parseListWith_map {f : Json → Option α} {g : α → Json}
    (h : ∀ x, f (g x) = some x) (xs : List α) :
    parseListWith f (xs.map g) = some xs := by
  induction xs with
  | nil => rfl
  | cons x xs ih => simp [parseListWith, h, ih]

/-- Validating the serialized form of a payload recovers the payload
field-for-field. -/
theorem validate_dump (p : IngestPayload) :
    validateIngestPayload (dumpPayload p) = some p := by
  obtain ⟨sv, eid, uid, src, sa, did, ws, dms⟩ := p
  have hsv : parseInt (Json.num (sv : Rat)) = some sv := by
    simp [parseInt, Rat.den_intCast, Rat.num_intCast]
  have hws := parseListWith_map validateWorkout_dump ws
  have hdm := parseListWith_map validateDailyMetric_dump dms
  cases src <;>
    simp +decide [validateIngestPayload, dumpPayload, Source.value, hasOnlyKeys,
      payloadKeys, lookupKey, reqField, defField, listField, parseStr, parseSource,
      List.foldl_cons, List.foldl_nil, hsv, hws, hdm]

/-- Validation of the whole submission fails whenever any of the eight
chained field parses fails at the `workouts` position. -/
theorem validateIngestPayload_obj_workouts_none {kvs : List (String × Json)}
    (hk : hasOnlyKeys kvs payloadKeys = true)
    (hw : listField validateWorkout kvs "workouts" = none) :
    validateIngestPayload (Json.obj kvs) = none := by
  simp only [validateIngestPayload, hk, if_true]
  apply bind_eq_none_of; intro sv
  apply bind_eq_none_of; intro eid
  apply bind_eq_none_of; intro uid
  apply bind_eq_none_of; intro src
  apply bind_eq_none_of; intro sa
  apply bind_eq_none_of; intro did
  rw [hw]
  rfl

/-- Validation of the whole submission fails whenever any of the eight
chained field parses fails at the `daily_metrics` position. -/
theorem validateIngestPayload_obj_metrics_none {kvs : List (String × Json)}
    (hk : hasOnlyKeys kvs payloadKeys = true)
    (hm : listField validateDailyMetric kvs "daily_metrics" = none) :
    validateIngestPayload (Json.obj kvs) = none := by
  simp only [validateIngestPayload, hk, if_true]
  apply bind_eq_none_of; intro sv
  apply bind_eq_none_of; intro eid
  apply bind_eq_none_of; intro uid
  apply bind_eq_none_of; intro src
  apply bind_eq_none_of; intro sa
  apply bind_eq_none_of; intro did
  apply bind_eq_none_of; intro ws
  rw [hm]
  rfl

/-- A record object carrying a key outside the allowed field names. -/
def objHasExtraKey (allowed : List String) (j : Json) : Bool :=
  match j with
  | .obj kvs => !(hasOnlyKeys kvs allowed)
  | _ => false

/-- The elements of a JSON-array field of the object (empty when the field
is absent or not an array). -/
def arrField (kvs : List (String × Json)) (k : String) : List Json :=
  match lookupKey kvs k with
  | some (.arr xs) => xs
  | _ => []

/-- A raw submission body carrying an undeclared field: at the top level,
inside an element of `workouts`, or inside an element of `daily_metrics`. -/
def hasExtraFieldAnywhere (j : Json) : Bool :=
  match j with
  | .obj kvs =>
      !(hasOnlyKeys kvs payloadKeys) ||
      (arrField kvs "workouts").any (objHasExtraKey workoutKeys) ||
      (arrField kvs "daily_metrics").any (objHasExtraKey dailyMetricKeys)
  | _ => false

/-- A workout object with an undeclared key fails validation. -/
theorem validateWorkout_extra {j : Json} (h : objHasExtraKey workoutKeys j = true) :
    validateWorkout j = none := by
  cases j <;> simp [objHasExtraKey] at h
  case obj kvs => simp [validateWorkout, h]

/-- A daily-metric object with an undeclared key fails validation. -/
theorem validateDailyMetric_extra {j : Json}
    (h : objHasExtraKey dailyMetricKeys j = true) :
    validateDailyMetric j = none := by
  cases j <;> simp [objHasExtraKey] at h
  case obj kvs => simp [validateDailyMetric, h]

/-- Element-wise validation of a list fails when any element fails. -/
theorem parseListWith_none {f : Json → Option α} {xs : List Json} {x : Json}
    (hx : x ∈ xs) (hf : f x = none) : parseListWith f xs = none := by
  induction xs with
  | nil => cases hx
  | cons y ys ih =>
      rcases List.mem_cons.mp hx with rfl | hmem
      · simp [parseListWith, hf]
      · cases hy : f y <;> simp [parseListWith, hy, ih hmem]

/-- `listField` fails when some element of the present array fails. -/
theorem listField_none {f : Json → Option α} {kvs : List (String × Json)}
    {k : String} {x : Json} (hx : x ∈ arrField kvs k) (hf : f x = none) :
    listField f kvs k = none := by
  unfold arrField at hx
  unfold listField
  cases hl : lookupKey kvs k with
  | none => rw [hl] at hx; cases hx
  | some j =>
      rw [hl] at hx
      cases j <;> simp at hx ⊢
      exact parseListWith_none hx hf

/-! ### Claim theorems -/

/-- C1: for a valid healthkit submission against a store with no row for
its `event_id`, ingesting it twice leaves exactly one row for that
`event_id`; the second call returns the same success response with the
same workout and metric counts; and the row found after the second call is
still the one created by the first call, with `received_at` = the first
call's server time. -/
theorem ingest_idempotent (db0 : DB) (now1 now2 : Nat) (p : IngestPayload)
    (hfresh : dbGet db0 p.event_id = none) (hsrc : p.source = Source.healthkit) :
    rowCount (ingest_healthkit (ingest_healthkit db0 now1 p).1 now2 p).1 p.event_id = 1 ∧
    (ingest_healthkit (ingest_healthkit db0 now1 p).1 now2 p).2 =
      (ingest_healthkit db0 now1 p).2 ∧
    (ingest_healthkit db0 now1 p).2 =
      RespBody.okBody p.event_id p.workouts.length p.daily_metrics.length ∧
    dbGet (ingest_healthkit (ingest_healthkit db0 now1 p).1 now2 p).1 p.event_id =
      some (mkEvent now1 p "healthkit_bundle") ∧
    (mkEvent now1 p "healthkit_bundle").received_at = now1 := by
  have h1 : ingest_healthkit db0 now1 p =
      (⟨db0.rows ++ [mkEvent now1 p "healthkit_bundle"]⟩,
       RespBody.okBody p.event_id p.workouts.length p.daily_metrics.length) := by
    simp [ingest_healthkit, hsrc, insertEvent, hfresh]
  have hget1 : dbGet ⟨db0.rows ++ [mkEvent now1 p "healthkit_bundle"]⟩ p.event_id =
      some (mkEvent now1 p "healthkit_bundle") := dbGet_append_self hfresh
  have h2 : ingest_healthkit ⟨db0.rows ++ [mkEvent now1 p "healthkit_bundle"]⟩ now2 p =
      (⟨db0.rows ++ [mkEvent now1 p "healthkit_bundle"]⟩,
       RespBody.okBody p.event_id p.workouts.length p.daily_metrics.length) := by
    simp [ingest_healthkit, hsrc, insertEvent, hget1]
  rw [h1, h2]
  exact ⟨rowCount_append_self hfresh, rfl, rfl, hget1, rfl⟩

/-- C1 witness: the spec's example submission against an empty store. -/
theorem ingest_idempotent_witness :
    rowCount (ingest_healthkit (ingest_healthkit emptyDB 1 samplePayload).1
        2 samplePayload).1 samplePayload.event_id = 1 ∧
    (ingest_healthkit (ingest_healthkit emptyDB 1 samplePayload).1 2 samplePayload).2 =
      (ingest_healthkit emptyDB 1 samplePayload).2 ∧
    (ingest_healthkit emptyDB 1 samplePayload).2 =
      RespBody.okBody samplePayload.event_id samplePayload.workouts.length
        samplePayload.daily_metrics.length ∧
    dbGet (ingest_healthkit (ingest_healthkit emptyDB 1 samplePayload).1
        2 samplePayload).1 samplePayload.event_id =
      some (mkEvent 1 samplePayload "healthkit_bundle") ∧
    (mkEvent 1 samplePayload "healthkit_bundle").received_at = 1 :=
  ingest_idempotent emptyDB 1 2 samplePayload rfl rfl

/-- C2: `_insert_event` with an existing row for the `event_id` performs no
write and returns without error; with no such row it appends exactly one
row whose `id` is the `event_id`, whose `received_at` is the current server
time, whose `event_type` is the given tag and whose `payload_json` is the
full serialized submission, and commits. -/
theorem insertEvent_recordIfNew (db : DB) (now : Nat) (p : IngestPayload) (et : String) :
    ((∃ e, dbGet db p.event_id = some e) → insertEvent db now p et = db) ∧
    (dbGet db p.event_id = none →
      insertEvent db now p et = ⟨db.rows ++ [mkEvent now p et]⟩ ∧
      (mkEvent now p et).id = p.event_id ∧
      (mkEvent now p et).received_at = now ∧
      (mkEvent now p et).event_type = et ∧
      (mkEvent now p et).payload_json = dumpPayload p) := by
  constructor
  · rintro ⟨e, he⟩
    simp [insertEvent, he]
  · intro h
    exact ⟨by simp [insertEvent, h], rfl, rfl, rfl, rfl⟩

/-- C2 witness: a duplicate insert against a table holding the row, and a
first insert against the empty table. -/
theorem insertEvent_recordIfNew_witness :
    insertEvent sampleDB1 7 samplePayload "healthkit_bundle" = sampleDB1 ∧
    insertEvent emptyDB 7 samplePayload "healthkit_bundle" =
      ⟨emptyDB.rows ++ [mkEvent 7 samplePayload "healthkit_bundle"]⟩ :=
  ⟨(insertEvent_recordIfNew sampleDB1 7 samplePayload "healthkit_bundle").1
      ⟨mkEvent 1 samplePayload "healthkit_bundle", rfl⟩,
   ((insertEvent_recordIfNew emptyDB 7 samplePayload "healthkit_bundle").2 rfl).1⟩

/-- C3: under the racing interleaving in which both concurrent
`_insert_event` executions pass the `db.get` existence check before either
commit runs, exactly one row results, but the losing writer's commit fails
on the primary-key constraint and — `_insert_event` having no handler for
it — raises instead of returning the claimed success, contradicting the
claim that all concurrent callers receive a success outcome. -/
theorem race_same_event_id_loser_raises :
    insertEventRace emptyDB 1 2 samplePayload "healthkit_bundle" =
      (⟨[mkEvent 1 samplePayload "healthkit_bundle"]⟩,
       Outcome.success, Outcome.exceptionRaised) ∧
    rowCount (insertEventRace emptyDB 1 2 samplePayload "healthkit_bundle").1
      samplePayload.event_id = 1 :=
  ⟨rfl, rfl⟩

/-- C4 counterexample: the empty JSON object fails validation, yet the
response to it has HTTP status 422 — FastAPI's default for a request-body
validation failure — not the claimed 200 (nothing is written, as claimed). -/
theorem validation_error_response_not_200 :
    validateIngestPayload (Json.obj []) = none ∧
    (handleIngest emptyDB 0 (Json.obj [])).2.status = 422 ∧
    ¬(handleIngest emptyDB 0 (Json.obj [])).2.status = 200 ∧
    (handleIngest emptyDB 0 (Json.obj [])).1 = emptyDB :=
  ⟨rfl, rfl, by decide, rfl⟩

/-- C4 amended: a request body that fails validation yields HTTP 422 with
the framework's validation-detail body and nothing is written; a valid body
whose source does not match the route yields HTTP 200 with
`{status: "error", message}` and nothing is written. -/
theorem error_paths_no_write (db : DB) (now : Nat) (j : Json) :
    (validateIngestPayload j = none →
      handleIngest db now j = (db, ⟨422, RespBody.validationDetail⟩)) ∧
    (∀ p, validateIngestPayload j = some p → p.source ≠ Source.healthkit →
      handleIngest db now j = (db, ⟨200, RespBody.errBody "source must be healthkit"⟩)) := by
  constructor
  · intro h
    simp [handleIngest, h]
  · intro p hp hsrc
    simp [handleIngest, hp, ingest_healthkit, hsrc]

/-- C4 witness: the empty object (validation failure) and a serialized
manual-source submission (source mismatch), both against the empty store. -/
theorem error_paths_no_write_witness :
    handleIngest emptyDB 0 (Json.obj []) = (emptyDB, ⟨422, RespBody.validationDetail⟩) ∧
    handleIngest emptyDB 0 (dumpPayload sampleManualPayload) =
      (emptyDB, ⟨200, RespBody.errBody "source must be healthkit"⟩) :=
  ⟨(error_paths_no_write emptyDB 0 (Json.obj [])).1 rfl,
   (error_paths_no_write emptyDB 0 (dumpPayload sampleManualPayload)).2
      sampleManualPayload rfl (by decide)⟩

/-- C5: a submission whose declared source is not the route's expected
`healthkit` is rejected with the source-mismatch error before any storage
interaction: the handler returns with the store unchanged. -/
theorem ingest_source_mismatch (db : DB) (now : Nat) (p : IngestPayload)
    (h : p.source ≠ Source.healthkit) :
    ingest_healthkit db now p = (db, RespBody.errBody "source must be healthkit") := by
  simp [ingest_healthkit, h]

/-- C5 witness: a manual-source submission against the empty store. -/
theorem ingest_source_mismatch_witness :
    ingest_healthkit emptyDB 3 sampleManualPayload =
      (emptyDB, RespBody.errBody "source must be healthkit") :=
  ingest_source_mismatch emptyDB 3 sampleManualPayload (by decide)

/-- C6: the `source` field validates exactly the two enum member strings,
the `metric_type` field validates exactly the four enum member strings,
and a daily metric whose `metric_type` is `"blood_pressure"` fails
validation. -/
theorem closed_enum_enforcement :
    (∀ j : Json, (parseSource j).isSome ↔
      j = Json.str "healthkit" ∨ j = Json.str "manual") ∧
    (∀ j : Json, (parseMetricType j).isSome ↔
      j = Json.str "steps" ∨ j = Json.str "active_energy_kcal" ∨
      j = Json.str "sleep_hours" ∨ j = Json.str "body_weight_lbs") ∧
    (∀ d : String, ∀ v : Rat, ∀ u : String,
      validateDailyMetric (Json.obj [("date", Json.str d),
        ("metric_type", Json.str "blood_pressure"),
        ("value", Json.num v), ("unit", Json.str u)]) = none) := by
  refine ⟨?_, ?_, ?_⟩
  · intro j
    cases j <;> simp [parseSource]
    case str s => split_ifs <;> simp_all
  · intro j
    cases j <;> simp [parseMetricType]
    case str s => split_ifs <;> simp_all
  · intro d v u
    rfl

/-- C7: a raw submission body carrying any undeclared field — at the top
level, inside a workout record, or inside a daily-metric record — fails
validation. -/
theorem extra_fields_rejected (j : Json) (h : hasExtraFieldAnywhere j = true) :
    validateIngestPayload j = none := by
  cases j <;> simp [hasExtraFieldAnywhere] at h
  case obj kvs =>
    rcases h with (h | ⟨x, hx, hbad⟩) | ⟨x, hx, hbad⟩
    · simp [validateIngestPayload, h]
    · by_cases hk : hasOnlyKeys kvs payloadKeys = true
      · exact validateIngestPayload_obj_workouts_none hk
          (listField_none hx (validateWorkout_extra hbad))
      · simp only [Bool.not_eq_true] at hk
        simp [validateIngestPayload, hk]
    · by_cases hk : hasOnlyKeys kvs payloadKeys = true
      · exact validateIngestPayload_obj_metrics_none hk
          (listField_none hx (validateDailyMetric_extra hbad))
      · simp only [Bool.not_eq_true] at hk
        simp [validateIngestPayload, hk]

/-- C7 witness: a body that is valid except for one undeclared top-level
key fails validation. -/
theorem extra_fields_rejected_witness :
    hasExtraFieldAnywhere extraKeyBody = true ∧
    validateIngestPayload extraKeyBody = none :=
  ⟨by decide, extra_fields_rejected extraKeyBody (by decide)⟩

/-- C8: recording a validated submission against a store with no row for
its `event_id` produces a stored event whose serialized `payload`
deserializes (validates) back to the original submission field-for-field. -/
theorem stored_payload_roundtrip (db : DB) (now : Nat) (p : IngestPayload) (et : String)
    (hfresh : dbGet db p.event_id = none) :
    ∃ e, dbGet (insertEvent db now p et) p.event_id = some e ∧
      validateIngestPayload e.payload_json = some p := by
  refine ⟨mkEvent now p et, ?_, validate_dump p⟩
  simp only [insertEvent, hfresh]
  exact dbGet_append_self hfresh

/-- C8 witness: a submission with 2 workouts and 3 daily metrics against
the empty store. -/
theorem stored_payload_roundtrip_witness :
    ∃ e, dbGet (insertEvent emptyDB 4 sampleFullPayload "healthkit_bundle")
        sampleFullPayload.event_id = some e ∧
      validateIngestPayload e.payload_json = some sampleFullPayload :=
  stored_payload_roundtrip emptyDB 4 sampleFullPayload "healthkit_bundle" rfl

/-- C9: a raw submission carrying only the required `event_id`, `sent_at`
and `device_id` passes validation with the defaults `user_id = "matt"`,
`source = healthkit` and `schema_version = 1`, and the row built from it
persists exactly those defaulted values. -/
theorem defaults_validate_and_persist (eid sa did : String) :
    validateIngestPayload (Json.obj [("event_id", Json.str eid),
        ("sent_at", Json.str sa), ("device_id", Json.str did)]) =
      some ⟨1, eid, "matt", Source.healthkit, sa, did, [], []⟩ ∧
    ∀ now : Nat, ∀ et : String,
      (mkEvent now ⟨1, eid, "matt", Source.healthkit, sa, did, [], []⟩ et).user_id =
        "matt" ∧
      (mkEvent now ⟨1, eid, "matt", Source.healthkit, sa, did, [], []⟩ et).source =
        "healthkit" ∧
      (mkEvent now ⟨1, eid, "matt", Source.healthkit, sa, did, [], []⟩ et).schema_version =
        "1" :=
  ⟨rfl, fun _ _ => ⟨rfl, rfl, rfl⟩⟩

/-- C10: the stored row's `schema_version` column holds the decimal string
form of the submission's integer `schema_version`, while the serialized
payload keeps it as a JSON integer number. -/
theorem schema_version_stored_as_text (db : DB) (now : Nat) (p : IngestPayload)
    (et : String) (hfresh : dbGet db p.event_id = none) :
    ∃ e, dbGet (insertEvent db now p et) p.event_id = some e ∧
      e.schema_version = toString p.schema_version ∧
      ∃ kvs, e.payload_json = Json.obj kvs ∧
        lookupKey kvs "schema_version" = some (Json.num (p.schema_version : Rat)) := by
  refine ⟨mkEvent now p et, ?_, rfl, ?_⟩
  · simp only [insertEvent, hfresh]
    exact dbGet_append_self hfresh
  · exact ⟨[("schema_version", Json.num (p.schema_version : Rat)),
      ("event_id", Json.str p.event_id), ("user_id", Json.str p.user_id),
      ("source", Json.str p.source.value), ("sent_at", Json.str p.sent_at),
      ("device_id", Json.str p.device_id),
      ("workouts", Json.arr (p.workouts.map dumpWorkout)),
      ("daily_metrics", Json.arr (p.daily_metrics.map dumpDailyMetric))],
      rfl, rfl⟩

/-- C10 witness: `schema_version = 1` is stored as the string `"1"`. -/
theorem schema_version_stored_as_text_witness :
    (∃ e, dbGet (insertEvent emptyDB 5 samplePayload "healthkit_bundle")
        samplePayload.event_id = some e ∧
      e.schema_version = toString samplePayload.schema_version ∧
      ∃ kvs, e.payload_json = Json.obj kvs ∧
        lookupKey kvs "schema_version" =
          some (Json.num (samplePayload.schema_version : Rat))) ∧
    toString samplePayload.schema_version = "1" :=
  ⟨schema_version_stored_as_text emptyDB 5 samplePayload "healthkit_bundle" rfl, rfl⟩

end HealthOS
